import Mathlib

/-!
Verification of the transaction-submission loop of `src/counter-interact.js`
(the KRNL-counter repository).

The script is a sequential loop of `INCREMENT_COUNT` attempts; each attempt
reads the counter, submits an `increment()` transaction, awaits its receipt,
accumulates gas statistics, re-reads the counter and sleeps. We embed the
loop shallowly: the nondeterministic network responses for one attempt are a
record of `Except` values (one per awaited call, in source order), and the
loop body is a pure function of that record, mirroring the JavaScript
control flow, including the `try`/`catch` boundary and the exact order of
the statistics updates.
-/

set_option autoImplicit false

namespace CounterInteract

/-- Model of a thrown JavaScript error; only its presence matters. -/
abbrev JsError := String

/-- Source line 19: `const INCREMENT_COUNT = 50`. -/
def INCREMENT_COUNT : Nat := 50

/-- Source line 20: `const MIN_DELAY = 1000`. -/
def MIN_DELAY : Nat := 1000

/-- Source line 21: `const MAX_DELAY = 3000`. -/
def MAX_DELAY : Nat := 3000

/-- Source line 127: the fixed `setTimeout(resolve, 5000)` backoff after a
failed attempt. -/
def RETRY_DELAY : Nat := 5000

/-- The fields of the `tx` object (ethers `TransactionResponse`) that the
script reads: only `tx.gasPrice` (line 99). Gas prices are nonnegative
big integers, modelled as `Nat`. -/
structure TxResponse where
  gasPrice : Nat
deriving Repr, DecidableEq

/-- The fields of the `receipt` object (ethers `TransactionReceipt`) that
the script reads: `receipt.gasUsed` (line 98) and `receipt.gasPrice`
(line 99). The receipt's gas price may be absent (`none`), and when present
it may be `0`; both are JavaScript-falsy. -/
structure TxReceipt where
  gasUsed : Nat
  gasPrice : Option Nat
deriving Repr, DecidableEq

/-- Source line 99: `receipt.gasPrice || tx.gasPrice`. JavaScript `||`
yields the right operand when the left is falsy: absent (`undefined`/`null`)
or the BigInt `0n`. -/
def jsOrGasPrice : Option Nat → Nat → Nat
  | none, b => b
  | some a, b => if a = 0 then b else a

/-- The mutable statistics of the run (source lines 75–78). -/
structure Stats where
  successCount : Nat
  failCount : Nat
  totalGasUsed : Nat
  totalGasCost : Nat
deriving Repr, DecidableEq

/-- Source lines 75–78: all four accumulators start at zero. -/
def initStats : Stats := ⟨0, 0, 0, 0⟩

/-- The network's responses to the awaited calls of one loop iteration, in
source order: `contract.getCount()` (line 87), `contract.increment()`
(line 92), `tx.wait()` (line 95) and the second `contract.getCount()`
(line 106). `rndNum / rndDen` models the `Math.random()` draw made by
`randomDelay()` (line 42) for this iteration, as an exact rational in
`[0, 1)` (so `rndNum < rndDen` for a genuine draw). -/
structure AttemptEnv where
  countRead : Except JsError Nat
  submit : Except JsError TxResponse
  wait : Except JsError TxReceipt
  newCountRead : Except JsError Nat
  rndNum : Nat
  rndDen : Nat
deriving Repr

/-- How one iteration of the `try` block ends. `failureAfterGas` is the path
where the receipt was obtained and the totals updated (lines 102–103) but
the second `getCount()` (line 106) threw, so control jumped to `catch`
after the gas totals had already been increased. -/
inductive AttemptOutcome where
  | success (gasUsed gasCost : Nat)
  | failureBeforeGas
  | failureAfterGas (gasUsed gasCost : Nat)
deriving Repr, DecidableEq

/-- Whether the outcome reaches `successCount++` (line 111). -/
def AttemptOutcome.isSuccess : AttemptOutcome → Bool
  | .success _ _ => true
  | .failureBeforeGas => false
  | .failureAfterGas _ _ => false

/-- The `try` block of source lines 85–106 up to the point where the outcome
is determined: each `await` either yields a value or throws (ending the
attempt), and on the confirmed path the gas statistics are computed from
the receipt exactly as in lines 98–100. -/
def attemptBody (a : AttemptEnv) : AttemptOutcome :=
  match a.countRead with
  | .error _ => .failureBeforeGas
  | .ok _ =>
    match a.submit with
    | .error _ => .failureBeforeGas
    | .ok tx =>
      match a.wait with
      | .error _ => .failureBeforeGas
      | .ok receipt =>
        let gasUsed := receipt.gasUsed
        let gasPrice := jsOrGasPrice receipt.gasPrice tx.gasPrice
        let gasCost := gasUsed * gasPrice
        match a.newCountRead with
        | .error _ => .failureAfterGas gasUsed gasCost
        | .ok _ => .success gasUsed gasCost

/-- Whether a receipt was obtained for this attempt (line 95 resolved):
the first three awaited calls all succeeded. -/
def receiptObtained (a : AttemptEnv) : Bool :=
  (match a.countRead with | .ok _ => true | .error _ => false) &&
  (match a.submit with | .ok _ => true | .error _ => false) &&
  (match a.wait with | .ok _ => true | .error _ => false)

/-- Whether a fallible call resolved rather than threw. -/
def exceptOk {α : Type} : Except JsError α → Bool
  | .ok _ => true
  | .error _ => false

/-- Whether any of the count read, transaction submission or confirmation
wait threw (the failure sources of lines 87, 92 and 95). -/
def preReceiptError (a : AttemptEnv) : Bool :=
  (match a.countRead with | .error _ => true | .ok _ => false) ||
  (match a.submit with | .error _ => true | .ok _ => false) ||
  (match a.wait with | .error _ => true | .ok _ => false)

/-- Source line 42: `Math.floor(Math.random() * (MAX_DELAY - MIN_DELAY + 1))
+ MIN_DELAY`, with `Math.random()` modelled as the exact rational
`num / den`; `Nat` division is the floor. -/
def randomDelayMs (num den : Nat) : Nat :=
  num * (MAX_DELAY - MIN_DELAY + 1) / den + MIN_DELAY

/-- One full iteration of the loop body (source lines 84–130) for index `i`
of `N`: run the `try` block, update the statistics, and return the list of
sleep durations performed (in milliseconds). On success the random delay is
slept only when `i < N` (line 114); on any caught error the fixed 5000 ms
backoff is slept (line 127). -/
def stepAttempt (N i : Nat) (s : Stats) (a : AttemptEnv) : Stats × List Nat :=
  match attemptBody a with
  | .success g c =>
    ({ s with totalGasUsed := s.totalGasUsed + g,
              totalGasCost := s.totalGasCost + c,
              successCount := s.successCount + 1 },
     if i < N then [randomDelayMs a.rndNum a.rndDen] else [])
  | .failureBeforeGas =>
    ({ s with failCount := s.failCount + 1 }, [RETRY_DELAY])
  | .failureAfterGas g c =>
    ({ s with totalGasUsed := s.totalGasUsed + g,
              totalGasCost := s.totalGasCost + c,
              failCount := s.failCount + 1 },
     [RETRY_DELAY])

/-- The loop `for (let i = 1; i <= N; i++)` run for `fuel` remaining
iterations starting at index `i`, threading the statistics and
concatenating the sleep durations. -/
def loopFuel (N : Nat) (envs : Nat → AttemptEnv) :
    Nat → Nat → Stats → Stats × List Nat
  | 0, _, s => (s, [])
  | fuel + 1, i, s =>
    let step := stepAttempt N i s (envs i)
    let rest := loopFuel N envs fuel (i + 1) step.1
    (rest.1, step.2 ++ rest.2)

/-- The whole loop of source lines 84–130, from index 1 to `N`, starting
from the zeroed statistics. `envs i` is the network's behaviour on
attempt `i`. -/
def runCounterLoop (N : Nat) (envs : Nat → AttemptEnv) : Stats × List Nat :=
  loopFuel N envs N 1 initStats

/-- JavaScript BigInt division `a / b`: throws a `RangeError` when `b` is
`0n`, otherwise truncates (for nonnegative operands, the floor). -/
def jsBigIntDiv (a b : Nat) : Except JsError Nat :=
  if b = 0 then .error "RangeError: Division by zero" else .ok (a / b)

/-- Source line 150: `successCount > 0 ? (totalGasUsed / BigInt(successCount))
.toString() : '0'` — the numeric value displayed as average gas per
transaction. -/
def avgGasPerTx (s : Stats) : Except JsError Nat :=
  if s.successCount > 0 then jsBigIntDiv s.totalGasUsed s.successCount
  else .ok 0

/-- Source line 151: `successCount > 0 ? formatEth(totalGasCost /
BigInt(successCount)) + ' ETH' : '0 ETH'` — the numeric value displayed as
average cost per transaction (`0` standing for the `'0 ETH'` string). -/
def avgCostPerTx (s : Stats) : Except JsError Nat :=
  if s.successCount > 0 then jsBigIntDiv s.totalGasCost s.successCount
  else .ok 0

/-- JavaScript falsiness of a possibly-absent environment string, as tested
by `if (!PRIVATE_KEY)` (line 24) and `if (!COUNTER_ADDRESS)` (line 29):
falsy when absent or empty. -/
def jsFalsyStr : Option String → Bool
  | none => true
  | some s => s == ""

/-- The whole process environment: configuration values, plus the network's
responses to every awaited call outside the per-attempt `try` blocks —
`provider.getBalance` (line 61), the initial `getCount()` (line 70), the
final `getCount()` (line 137) and the final `getBalance` (line 154) — and
the per-attempt responses. -/
structure Env where
  privateKey : Option String
  counterAddress : Option String
  balanceRead : Except JsError Nat
  initialCountRead : Except JsError Nat
  attempts : Nat → AttemptEnv
  finalCountRead : Except JsError Nat
  finalBalanceRead : Except JsError Nat

/-- Observable outcome of one process run: the exit code, how many loop
iterations ran, the final statistics accumulators, and which parts of the
final report were printed — `printedStats` covers lines 138–151 (counts,
success rate, gas totals and averages), `printedBalance` lines 155–157,
`completed` the `Test completed` line 159. -/
structure RunResult where
  exitCode : Nat
  attemptsRun : Nat
  stats : Stats
  printedStats : Bool
  printedBalance : Bool
  completed : Bool
deriving Repr, DecidableEq

/-- The run result of every path that terminates before the loop starts:
exit code 1, zero attempts, zeroed statistics, nothing reported. -/
def fatalBeforeLoop : RunResult := ⟨1, 0, initStats, false, false, false⟩

/-- The whole script: the top-level configuration checks (lines 24–33),
then `main` (lines 51–160) under the top-level `catch` that exits 1
(lines 162–165). An `Except.error` on a read outside the per-attempt `try`
rejects `main` and reaches that `catch`. A normal return exits 0. -/
def runProcess (env : Env) : RunResult :=
  if jsFalsyStr env.privateKey then fatalBeforeLoop
  else if jsFalsyStr env.counterAddress then fatalBeforeLoop
  else
    match env.balanceRead with
    | .error _ => fatalBeforeLoop
    | .ok bal =>
      if bal = 0 then fatalBeforeLoop
      else
        match env.initialCountRead with
        | .error _ => fatalBeforeLoop
        | .ok _ =>
          let run := runCounterLoop INCREMENT_COUNT env.attempts
          match env.finalCountRead with
          | .error _ => ⟨1, INCREMENT_COUNT, run.1, false, false, false⟩
          | .ok _ =>
            match env.finalBalanceRead with
            | .error _ => ⟨1, INCREMENT_COUNT, run.1, true, false, false⟩
            | .ok _ => ⟨0, INCREMENT_COUNT, run.1, true, true, true⟩

/-- Whether the startup phase (configuration checks, balance check, initial
count read) completes and the loop is reached. -/
def startupOk (env : Env) : Bool :=
  !jsFalsyStr env.privateKey && !jsFalsyStr env.counterAddress &&
  (match env.balanceRead with | .ok bal => decide (bal ≠ 0) | .error _ => false) &&
  (match env.initialCountRead with | .ok _ => true | .error _ => false)

/-- Whether both post-loop reads (final count, final balance) succeed. -/
def finishOk (env : Env) : Bool :=
  (match env.finalCountRead with | .ok _ => true | .error _ => false) &&
  (match env.finalBalanceRead with | .ok _ => true | .error _ => false)

end CounterInteract

namespace CounterInteract

/-! ### Concrete environments used by witnesses and counterexamples -/

/-- An attempt on which every awaited call succeeds: receipt reports
`gasUsed` gas at price `rp`, the pre-submission price is `txp`. -/
def okAttempt (gasUsed : Nat) (rp : Option Nat) (txp : Nat) : AttemptEnv :=
  ⟨.ok 0, .ok ⟨txp⟩, .ok ⟨gasUsed, rp⟩, .ok 1, 1, 2⟩

/-- An attempt whose transaction submission throws. -/
def submitFailAttempt : AttemptEnv :=
  ⟨.ok 0, .error "RPC error", .error "unreached", .error "unreached", 1, 2⟩

/-- An attempt whose receipt is obtained (gas 21000 at price 10) but whose
post-confirmation counter re-read throws. -/
def lateFailAttempt : AttemptEnv :=
  ⟨.ok 0, .ok ⟨10⟩, .ok ⟨21000, some 10⟩, .error "network error", 1, 2⟩

/-- An environment passing every check, with every attempt succeeding. -/
def goodEnv : Env :=
  ⟨some "0xkey", some "0xaddr", .ok 5, .ok 0,
   fun _ => okAttempt 21000 (some 10) 10, .ok 50, .ok 3⟩

/-- `goodEnv` except that the post-loop balance read (line 154) throws. -/
def finalBalanceFailEnv : Env :=
  ⟨some "0xkey", some "0xaddr", .ok 5, .ok 0,
   fun _ => okAttempt 21000 (some 10) 10, .ok 50, .error "network error"⟩

/-- `goodEnv` except that the post-loop count read (line 137) throws. -/
def finalCountFailEnv : Env :=
  ⟨some "0xkey", some "0xaddr", .ok 5, .ok 0,
   fun _ => okAttempt 21000 (some 10) 10, .error "network error", .ok 3⟩

/-- `goodEnv` except that the wallet balance is zero. -/
def zeroBalanceEnv : Env :=
  ⟨some "0xkey", some "0xaddr", .ok 0, .ok 0,
   fun _ => okAttempt 21000 (some 10) 10, .ok 50, .ok 3⟩

/-! ### Helper lemmas -/

/-- Each iteration increments exactly one of the two counters. -/
theorem stepAttempt_counts (N i : Nat) (s : Stats) (a : AttemptEnv) :
    (stepAttempt N i s a).1.successCount + (stepAttempt N i s a).1.failCount
      = s.successCount + s.failCount + 1 := by
  unfold stepAttempt
  cases attemptBody a <;> simp <;> omega

/-- Running `fuel` iterations adds exactly `fuel` to the counter sum. -/
theorem loopFuel_counts (N : Nat) (envs : Nat → AttemptEnv) :
    ∀ (fuel i : Nat) (s : Stats),
      (loopFuel N envs fuel i s).1.successCount
        + (loopFuel N envs fuel i s).1.failCount
      = s.successCount + s.failCount + fuel := by
  intro fuel
  induction fuel with
  | zero => intro i s; simp [loopFuel]
  | succ n ih =>
    intro i s
    have h := stepAttempt_counts N i s (envs i)
    simp only [loopFuel]
    rw [ih]
    omega

/-- A pre-receipt error makes the whole `try` block end in the `catch` with
no gas recorded. -/
theorem attemptBody_of_preReceiptError (a : AttemptEnv)
    (h : preReceiptError a = true) :
    attemptBody a = .failureBeforeGas := by
  rcases a with ⟨cr, sb, wt, nc, num, den⟩
  cases cr <;> cases sb <;> cases wt <;>
    simp_all [preReceiptError, attemptBody]

/-- One iteration never decreases either gas accumulator. -/
theorem stepAttempt_gas_le (N i : Nat) (s : Stats) (a : AttemptEnv) :
    s.totalGasUsed ≤ (stepAttempt N i s a).1.totalGasUsed
    ∧ s.totalGasCost ≤ (stepAttempt N i s a).1.totalGasCost := by
  unfold stepAttempt
  cases attemptBody a <;> simp

/-- Across any number of iterations, the gas accumulators never decrease. -/
theorem loopFuel_gas_le (N : Nat) (envs : Nat → AttemptEnv) :
    ∀ (fuel i : Nat) (s : Stats),
      s.totalGasUsed ≤ (loopFuel N envs fuel i s).1.totalGasUsed
      ∧ s.totalGasCost ≤ (loopFuel N envs fuel i s).1.totalGasCost := by
  intro fuel
  induction fuel with
  | zero => intro i s; simp [loopFuel]
  | succ n ih =>
    intro i s
    have h1 := stepAttempt_gas_le N i s (envs i)
    have h2 := ih (i + 1) (stepAttempt N i s (envs i)).1
    simp only [loopFuel]
    exact ⟨le_trans h1.1 h2.1, le_trans h1.2 h2.2⟩

/-! ### Claims -/

/-- C1: at loop completion, for the configured attempt count `N`
(default 50), `successCount + failCount = N`: every iteration of the
attempt loop increments exactly one of the two counters, whatever the
network does on each attempt. -/
theorem loop_success_fail_partition (N i : Nat) (s : Stats) (a : AttemptEnv)
    (envs : Nat → AttemptEnv) :
    (stepAttempt N i s a).1.successCount + (stepAttempt N i s a).1.failCount
      = s.successCount + s.failCount + 1
    ∧ (runCounterLoop N envs).1.successCount
        + (runCounterLoop N envs).1.failCount = N
    ∧ (runCounterLoop INCREMENT_COUNT envs).1.successCount
        + (runCounterLoop INCREMENT_COUNT envs).1.failCount = 50 := by
  refine ⟨stepAttempt_counts N i s a, ?_, ?_⟩
  · have h := loopFuel_counts N envs N 1 initStats
    simpa [runCounterLoop, initStats] using h
  · have h := loopFuel_counts INCREMENT_COUNT envs INCREMENT_COUNT 1 initStats
    simpa [runCounterLoop, initStats, INCREMENT_COUNT] using h

/-- C2 counterexample: an attempt recorded as a failure (the `failCount`
counter is the one incremented) that nevertheless added to the gas totals —
the receipt was obtained and lines 102–103 ran before the counter re-read
of line 106 threw, so "on any attempt recorded as a failure, nothing is
added to the gas totals" is false on the code. -/
theorem gas_added_on_failure_cex :
    (stepAttempt 50 1 initStats lateFailAttempt).1.failCount
        = initStats.failCount + 1
    ∧ (stepAttempt 50 1 initStats lateFailAttempt).1.successCount
        = initStats.successCount
    ∧ (stepAttempt 50 1 initStats lateFailAttempt).1.totalGasUsed
        ≠ initStats.totalGasUsed
    ∧ (stepAttempt 50 1 initStats lateFailAttempt).1.totalGasCost
        ≠ initStats.totalGasCost := by
  decide

/-- C2 (amended): the cumulative gas accumulators are non-negative (they
live in `Nat` and start at 0) and non-decreasing, both over one iteration
and over any run of the loop; an attempt that fails before a receipt is
obtained adds nothing to them; and any increase implies a receipt was
obtained — though such an attempt may still be recorded as a failure when
the post-confirmation counter re-read throws. -/
theorem gas_totals_monotone_receipt (N i : Nat) (s : Stats) (a : AttemptEnv)
    (envs : Nat → AttemptEnv) (fuel j : Nat) :
    s.totalGasUsed ≤ (stepAttempt N i s a).1.totalGasUsed
    ∧ s.totalGasCost ≤ (stepAttempt N i s a).1.totalGasCost
    ∧ s.totalGasUsed ≤ (loopFuel N envs fuel j s).1.totalGasUsed
    ∧ s.totalGasCost ≤ (loopFuel N envs fuel j s).1.totalGasCost
    ∧ (preReceiptError a = true →
        (stepAttempt N i s a).1.totalGasUsed = s.totalGasUsed
        ∧ (stepAttempt N i s a).1.totalGasCost = s.totalGasCost)
    ∧ ((stepAttempt N i s a).1.totalGasUsed ≠ s.totalGasUsed →
        receiptObtained a = true) := by
  refine ⟨(stepAttempt_gas_le N i s a).1, (stepAttempt_gas_le N i s a).2,
    (loopFuel_gas_le N envs fuel j s).1, (loopFuel_gas_le N envs fuel j s).2,
    ?_, ?_⟩
  · intro h
    simp [stepAttempt, attemptBody_of_preReceiptError a h]
  · intro h
    rcases a with ⟨cr, sb, wt, nc, num, den⟩
    cases cr <;> cases sb <;> cases wt <;>
      simp_all [stepAttempt, attemptBody, receiptObtained]

/-- C2 witness: the amended theorem applied to a concrete failing attempt,
its hypotheses discharged. -/
theorem gas_totals_monotone_receipt_witness :
    initStats.totalGasUsed
      ≤ (stepAttempt 50 1 initStats submitFailAttempt).1.totalGasUsed
    ∧ (stepAttempt 50 1 initStats submitFailAttempt).1.totalGasUsed
        = initStats.totalGasUsed
    ∧ (stepAttempt 50 1 initStats submitFailAttempt).1.totalGasCost
        = initStats.totalGasCost :=
  ⟨(gas_totals_monotone_receipt 50 1 initStats submitFailAttempt
      (fun _ => submitFailAttempt) 3 1).1,
   (gas_totals_monotone_receipt 50 1 initStats submitFailAttempt
      (fun _ => submitFailAttempt) 3 1).2.2.2.2.1 rfl⟩

/-- C3 counterexample: an attempt whose increment transaction is confirmed
(a receipt is obtained) but whose success count is not incremented — the
post-confirmation counter re-read throws, so the attempt is recorded as a
failure, refuting "for every attempt whose increment transaction is
confirmed, the runner increments the success count". -/
theorem confirmed_not_success_cex :
    receiptObtained lateFailAttempt = true
    ∧ (stepAttempt 50 1 initStats lateFailAttempt).1.successCount
        = initStats.successCount
    ∧ (stepAttempt 50 1 initStats lateFailAttempt).1.failCount
        = initStats.failCount + 1 := by
  decide

/-- C3 (amended): for every attempt whose increment transaction is
confirmed, the runner reads gas used and effective gas price from the
receipt and adds `gasUsed × gasPrice` to the cumulative totals; it then
increments the success count provided the subsequent counter re-read also
succeeds, and otherwise records the attempt as a failure. -/
theorem confirmed_receipt_accounting (N i : Nat) (s : Stats) (a : AttemptEnv)
    (cv : Nat) (tx : TxResponse) (r : TxReceipt)
    (hc : a.countRead = .ok cv) (hs : a.submit = .ok tx)
    (hw : a.wait = .ok r) :
    (stepAttempt N i s a).1.totalGasUsed = s.totalGasUsed + r.gasUsed
    ∧ (stepAttempt N i s a).1.totalGasCost
        = s.totalGasCost + r.gasUsed * jsOrGasPrice r.gasPrice tx.gasPrice
    ∧ (exceptOk a.newCountRead = true →
        (stepAttempt N i s a).1.successCount = s.successCount + 1
        ∧ (stepAttempt N i s a).1.failCount = s.failCount)
    ∧ (exceptOk a.newCountRead = false →
        (stepAttempt N i s a).1.failCount = s.failCount + 1
        ∧ (stepAttempt N i s a).1.successCount = s.successCount) := by
  rcases a with ⟨cr, sb, wt, nc, num, den⟩
  simp only at hc hs hw
  subst hc hs hw
  cases nc <;> simp [stepAttempt, attemptBody, exceptOk]

/-- C3 witness: the amended theorem applied to a fully successful concrete
attempt, its hypotheses discharged. -/
theorem confirmed_receipt_accounting_witness :
    (stepAttempt 50 1 initStats (okAttempt 21000 (some 10) 10)).1.totalGasUsed
        = initStats.totalGasUsed + 21000
    ∧ (stepAttempt 50 1 initStats (okAttempt 21000 (some 10) 10)).1.successCount
        = initStats.successCount + 1 :=
  ⟨(confirmed_receipt_accounting 50 1 initStats (okAttempt 21000 (some 10) 10)
      0 ⟨10⟩ ⟨21000, some 10⟩ rfl rfl rfl).1,
   ((confirmed_receipt_accounting 50 1 initStats (okAttempt 21000 (some 10) 10)
      0 ⟨10⟩ ⟨21000, some 10⟩ rfl rfl rfl).2.2.1 rfl).1⟩

/-- C4: any error thrown during the count read, transaction submission or
confirmation wait of an attempt is caught locally — the attempt's only
effect on the statistics is `failCount + 1`, the fixed backoff is slept —
and the loop still executes all `N` attempts to completion (every
iteration is counted, with no early abort). -/
theorem per_attempt_errors_caught (N i : Nat) (s : Stats) (a : AttemptEnv)
    (envs : Nat → AttemptEnv) (herr : preReceiptError a = true) :
    (stepAttempt N i s a).1 = { s with failCount := s.failCount + 1 }
    ∧ (stepAttempt N i s a).2 = [RETRY_DELAY]
    ∧ (runCounterLoop N envs).1.successCount
        + (runCounterLoop N envs).1.failCount = N := by
  refine ⟨?_, ?_, ?_⟩
  · simp [stepAttempt, attemptBody_of_preReceiptError a herr]
  · simp [stepAttempt, attemptBody_of_preReceiptError a herr]
  · have h := loopFuel_counts N envs N 1 initStats
    simpa [runCounterLoop, initStats] using h

/-- C4 witness: the theorem applied to a concrete attempt whose submission
throws, its hypothesis discharged. -/
theorem per_attempt_errors_caught_witness :
    (stepAttempt 50 1 initStats submitFailAttempt).1
        = { initStats with failCount := initStats.failCount + 1 }
    ∧ (stepAttempt 50 1 initStats submitFailAttempt).2 = [RETRY_DELAY]
    ∧ (runCounterLoop 50 fun _ => submitFailAttempt).1.successCount
        + (runCounterLoop 50 fun _ => submitFailAttempt).1.failCount = 50 :=
  per_attempt_errors_caught 50 1 initStats submitFailAttempt
    (fun _ => submitFailAttempt) rfl

/-- C5: the displayed average gas and average cost per successful
transaction are always computed without a division-by-zero error (the
ternary guard of lines 150–151 shields the BigInt division), and when
`successCount = 0` both are the zero-equivalent value. -/
theorem avg_display_total (s : Stats) :
    avgGasPerTx s
      = .ok (if s.successCount = 0 then 0 else s.totalGasUsed / s.successCount)
    ∧ avgCostPerTx s
      = .ok (if s.successCount = 0 then 0
          else s.totalGasCost / s.successCount) := by
  by_cases h : s.successCount = 0 <;>
    simp [avgGasPerTx, avgCostPerTx, jsBigIntDiv, h, Nat.pos_of_ne_zero]

/-- C6 counterexample: the pre-submission gas price is used although the
receipt does not omit its gas price — it reports it as `0`, which is
JavaScript-falsy — so "the pre-submission gas price is used if and only if
the receipt omits the gas price" is false on the code. -/
theorem gas_price_fallback_iff_cex :
    ¬ ((jsOrGasPrice (some 0) 7 = 7) ↔ ((some 0 : Option Nat) = none)) := by
  decide

/-- C6 (amended): the gas price used in the cost computation is the
receipt's gas price when it is present and nonzero; the pre-submission gas
price is used when the receipt omits the gas price or reports it as zero;
and a confirmed attempt's per-transaction cost is `gasUsed` times the gas
price so selected. -/
theorem gas_price_fallback_falsy (p txp g cv nv num den : Nat)
    (hp : p ≠ 0) :
    jsOrGasPrice (some p) txp = p
    ∧ jsOrGasPrice none txp = txp
    ∧ jsOrGasPrice (some 0) txp = txp
    ∧ attemptBody ⟨.ok cv, .ok ⟨txp⟩, .ok ⟨g, some p⟩, .ok nv, num, den⟩
        = .success g (g * p)
    ∧ attemptBody ⟨.ok cv, .ok ⟨txp⟩, .ok ⟨g, none⟩, .ok nv, num, den⟩
        = .success g (g * txp) := by
  simp [jsOrGasPrice, attemptBody, hp]

/-- C6 witness: the amended theorem applied at concrete gas prices, its
hypothesis discharged. -/
theorem gas_price_fallback_falsy_witness :
    jsOrGasPrice (some 9) 7 = 9
    ∧ jsOrGasPrice none 7 = 7
    ∧ jsOrGasPrice (some 0) 7 = 7 :=
  ⟨(gas_price_fallback_falsy 9 7 21000 0 1 1 2 (by decide)).1,
   (gas_price_fallback_falsy 9 7 21000 0 1 1 2 (by decide)).2.1,
   (gas_price_fallback_falsy 9 7 21000 0 1 1 2 (by decide)).2.2.1⟩

/-- C7: a falsy signing key, a falsy target address or a zero balance makes
the process exit with code 1 before any attempt (zero attempts, zeroed
statistics, nothing reported); the exit code is 0 exactly when the startup
phase and both post-loop reads succeed — a condition independent of the
per-attempt outcomes, so completion exits 0 regardless of how many
attempts failed, and any unhandled top-level error exits 1; whenever
startup succeeds, all `INCREMENT_COUNT` attempts run. -/
theorem process_exit_codes (env : Env) :
    ((jsFalsyStr env.privateKey = true ∨ jsFalsyStr env.counterAddress = true
        ∨ env.balanceRead = .ok 0) →
      runProcess env = fatalBeforeLoop)
    ∧ (runProcess env).exitCode
        = (if startupOk env && finishOk env then 0 else 1)
    ∧ (startupOk env = true →
        (runProcess env).attemptsRun = INCREMENT_COUNT) := by
  rcases env with ⟨pk, addr, br, icr, atts, fcr, fbr⟩
  refine ⟨?_, ?_, ?_⟩
  · rintro (h | h | h)
    · simp [runProcess, h]
    · cases hpk : jsFalsyStr pk <;> simp [runProcess, hpk, h]
    · simp only at h
      subst h
      cases hpk : jsFalsyStr pk <;> cases haddr : jsFalsyStr addr <;>
        simp [runProcess, hpk, haddr]
  · cases hpk : jsFalsyStr pk with
    | true => simp [runProcess, startupOk, hpk, fatalBeforeLoop]
    | false =>
      cases haddr : jsFalsyStr addr with
      | true => simp [runProcess, startupOk, hpk, haddr, fatalBeforeLoop]
      | false =>
        cases br with
        | error e => simp [runProcess, startupOk, hpk, haddr, fatalBeforeLoop]
        | ok bal =>
          by_cases hb : bal = 0
          · simp [runProcess, startupOk, hpk, haddr, hb, fatalBeforeLoop]
          · cases icr with
            | error e =>
              simp [runProcess, startupOk, hpk, haddr, hb, fatalBeforeLoop]
            | ok ic =>
              cases fcr with
              | error e =>
                simp [runProcess, startupOk, finishOk, hpk, haddr, hb]
              | ok fc =>
                cases fbr <;>
                  simp [runProcess, startupOk, finishOk, hpk, haddr, hb]
  · intro hstart
    simp only [startupOk, Bool.and_eq_true] at hstart
    obtain ⟨⟨⟨hpk, haddr⟩, hbal⟩, hicr⟩ := hstart
    simp only [Bool.not_eq_true'] at hpk haddr
    cases br with
    | error e => simp at hbal
    | ok bal =>
      have hb : bal ≠ 0 := by simpa using hbal
      cases icr with
      | error e => simp at hicr
      | ok ic =>
        cases fcr <;> cases fbr <;> simp [runProcess, hpk, haddr, hb]

/-- C7 witness: the theorem applied to a zero-balance environment and to a
fully successful environment, its hypotheses discharged. -/
theorem process_exit_codes_witness :
    runProcess zeroBalanceEnv = fatalBeforeLoop
    ∧ (runProcess goodEnv).exitCode
        = (if startupOk goodEnv && finishOk goodEnv then 0 else 1)
    ∧ (runProcess goodEnv).attemptsRun = INCREMENT_COUNT :=
  ⟨(process_exit_codes zeroBalanceEnv).1 (Or.inr (Or.inr rfl)),
   (process_exit_codes goodEnv).2.1,
   (process_exit_codes goodEnv).2.2 rfl⟩

/-- C8: after a successful attempt that is not the last, exactly one random
delay is slept, and the `randomDelayMs` draw lies in
`[MIN_DELAY, MAX_DELAY]` for every `Math.random()` value in `[0, 1)`, with
every millisecond value of that range attainable; after a failed attempt
exactly the fixed `RETRY_DELAY` backoff is slept, with no random delay in
its place; and no delay follows a successful last attempt. -/
theorem delay_schedule (N i : Nat) (s : Stats) (a : AttemptEnv) (d : Nat)
    (hden : 0 < a.rndDen) (hnum : a.rndNum < a.rndDen)
    (hd1 : MIN_DELAY ≤ d) (hd2 : d ≤ MAX_DELAY) :
    ((attemptBody a).isSuccess = true → i < N →
      (stepAttempt N i s a).2 = [randomDelayMs a.rndNum a.rndDen])
    ∧ MIN_DELAY ≤ randomDelayMs a.rndNum a.rndDen
    ∧ randomDelayMs a.rndNum a.rndDen ≤ MAX_DELAY
    ∧ ((attemptBody a).isSuccess = false →
        (stepAttempt N i s a).2 = [RETRY_DELAY])
    ∧ ((attemptBody a).isSuccess = true → ¬ i < N →
        (stepAttempt N i s a).2 = [])
    ∧ (∃ num den, 0 < den ∧ num < den ∧ randomDelayMs num den = d) := by
  have hdiv : a.rndNum * (MAX_DELAY - MIN_DELAY + 1) / a.rndDen
      ≤ MAX_DELAY - MIN_DELAY := by
    have hlt : a.rndNum * (MAX_DELAY - MIN_DELAY + 1)
        < (MAX_DELAY - MIN_DELAY + 1) * a.rndDen := by
      calc a.rndNum * (MAX_DELAY - MIN_DELAY + 1)
          < a.rndDen * (MAX_DELAY - MIN_DELAY + 1) :=
            (Nat.mul_lt_mul_right (by decide)).2 hnum
        _ = (MAX_DELAY - MIN_DELAY + 1) * a.rndDen := Nat.mul_comm _ _
    have h := (Nat.div_lt_iff_lt_mul hden).2 hlt
    omega
  refine ⟨?_, ?_, ?_, ?_, ?_, ?_⟩
  · intro hsucc hi
    cases h : attemptBody a <;> simp [h, AttemptOutcome.isSuccess] at hsucc ⊢
    · simp [stepAttempt, h, hi]
  · exact Nat.le_add_left _ _
  · simp only [randomDelayMs]
    omega
  · intro hfail
    cases h : attemptBody a <;>
      simp [h, AttemptOutcome.isSuccess, stepAttempt] at hfail ⊢
  · intro hsucc hi
    cases h : attemptBody a <;> simp [h, AttemptOutcome.isSuccess] at hsucc ⊢
    · simp [stepAttempt, h, hi]
  · refine ⟨d - MIN_DELAY, MAX_DELAY - MIN_DELAY + 1, by omega, by
      simp only [MIN_DELAY, MAX_DELAY] at hd2 ⊢; omega, ?_⟩
    have : (d - MIN_DELAY) * (MAX_DELAY - MIN_DELAY + 1)
        / (MAX_DELAY - MIN_DELAY + 1) = d - MIN_DELAY :=
      Nat.mul_div_cancel _ (by simp [MIN_DELAY, MAX_DELAY])
    simp only [randomDelayMs, this]
    omega

/-- C8 witness: the theorem applied to a concrete successful attempt
(`Math.random() = 1/2`) and the target delay 1500 ms, hypotheses
discharged. -/
theorem delay_schedule_witness :
    (stepAttempt 50 1 initStats (okAttempt 21000 (some 10) 10)).2
        = [randomDelayMs 1 2]
    ∧ MIN_DELAY ≤ randomDelayMs 1 2
    ∧ (∃ num den, 0 < den ∧ num < den ∧ randomDelayMs num den = 1500) :=
  ⟨(delay_schedule 50 1 initStats (okAttempt 21000 (some 10) 10) 1500
      (by decide) (by decide) (by decide) (by decide)).1 rfl (by decide),
   (delay_schedule 50 1 initStats (okAttempt 21000 (some 10) 10) 1500
      (by decide) (by decide) (by decide) (by decide)).2.1,
   (delay_schedule 50 1 initStats (okAttempt 21000 (some 10) 10) 1500
      (by decide) (by decide) (by decide) (by decide)).2.2.2.2.2⟩

/-- C9: the gas-price fallback tests JavaScript falsiness, not absence — a
receipt reporting a gas price of `0` also takes the fallback, so a
confirmed attempt with `receipt.gasPrice = 0` is accounted at cost
`gasUsed × tx.gasPrice`, exactly as when the receipt omits the price. -/
theorem zero_gas_price_fallback (g txp cv nv num den : Nat) :
    jsOrGasPrice (some 0) txp = txp
    ∧ jsOrGasPrice none txp = txp
    ∧ attemptBody ⟨.ok cv, .ok ⟨txp⟩, .ok ⟨g, some 0⟩, .ok nv, num, den⟩
        = .success g (g * txp)
    ∧ attemptBody ⟨.ok cv, .ok ⟨txp⟩, .ok ⟨g, none⟩, .ok nv, num, den⟩
        = .success g (g * txp) := by
  simp [jsOrGasPrice, attemptBody]

/-- C10 counterexample: when only the post-loop balance read throws, the
count and gas statistics of the final report have already been printed
(lines 138–151 ran), so "the final statistics report is not printed" is
false on the code, although the process does exit with code 1. -/
theorem final_report_printed_on_balance_error_cex :
    (runProcess finalBalanceFailEnv).exitCode = 1
    ∧ (runProcess finalBalanceFailEnv).printedStats = true
    ∧ (runProcess finalBalanceFailEnv).completed = false := by
  decide

/-- C10 (amended): after a successful startup, an error on the post-loop
final-count read escapes to the top level — no statistics are printed and
the process exits 1 with all attempts executed; an error on the final
balance read also exits 1 with all attempts executed, but the count and
gas statistics have already been printed and only the balance section and
completion message are missing. -/
theorem post_loop_read_errors (env : Env) (hstart : startupOk env = true) :
    (exceptOk env.finalCountRead = false →
      (runProcess env).exitCode = 1
      ∧ (runProcess env).attemptsRun = INCREMENT_COUNT
      ∧ (runProcess env).printedStats = false
      ∧ (runProcess env).printedBalance = false
      ∧ (runProcess env).completed = false)
    ∧ (exceptOk env.finalCountRead = true →
        exceptOk env.finalBalanceRead = false →
      (runProcess env).exitCode = 1
      ∧ (runProcess env).attemptsRun = INCREMENT_COUNT
      ∧ (runProcess env).printedStats = true
      ∧ (runProcess env).printedBalance = false
      ∧ (runProcess env).completed = false) := by
  rcases env with ⟨pk, addr, br, icr, atts, fcr, fbr⟩
  simp only [startupOk, Bool.and_eq_true] at hstart
  obtain ⟨⟨⟨hpk, haddr⟩, hbal⟩, hicr⟩ := hstart
  simp only [Bool.not_eq_true'] at hpk haddr
  cases br with
  | error e => simp at hbal
  | ok bal =>
    have hb : bal ≠ 0 := by simpa using hbal
    cases icr with
    | error e => simp at hicr
    | ok ic =>
      constructor
      · intro hf
        cases fcr with
        | ok fc => simp [exceptOk] at hf
        | error e => simp [runProcess, hpk, haddr, hb]
      · intro hf hg
        cases fcr with
        | error e => simp [exceptOk] at hf
        | ok fc =>
          cases fbr with
          | ok fb => simp [exceptOk] at hg
          | error e => simp [runProcess, hpk, haddr, hb]

/-- C10 witness: the amended theorem applied to the two concrete failing
environments, its hypotheses discharged. -/
theorem post_loop_read_errors_witness :
    ((runProcess finalCountFailEnv).exitCode = 1
      ∧ (runProcess finalCountFailEnv).attemptsRun = INCREMENT_COUNT
      ∧ (runProcess finalCountFailEnv).printedStats = false
      ∧ (runProcess finalCountFailEnv).printedBalance = false
      ∧ (runProcess finalCountFailEnv).completed = false)
    ∧ ((runProcess finalBalanceFailEnv).exitCode = 1
      ∧ (runProcess finalBalanceFailEnv).attemptsRun = INCREMENT_COUNT
      ∧ (runProcess finalBalanceFailEnv).printedStats = true
      ∧ (runProcess finalBalanceFailEnv).printedBalance = false
      ∧ (runProcess finalBalanceFailEnv).completed = false) :=
  ⟨(post_loop_read_errors finalCountFailEnv rfl).1 rfl,
   (post_loop_read_errors finalBalanceFailEnv rfl).2 rfl rfl⟩

end CounterInteract
